import Mathlib

/-!
Verification development for the TextLands CLI (`textlands_cli/main.py`).

The development shallowly embeds the decision logic of the client:

* the natural-language intent router (`_parse_dm_intent`, `_parse_inbox_intent`,
  `_parse_global_chat_intent`, `_handle_chat_intent`),
* the game-loop line dispatch (`_game_loop`, `_do_action` and the slash-command
  lexer), including the rendering/continuation behaviour of every handler,
* the device-auth polling loop inside `login`,
* the resume/selection path of `play`,
* the inbox renderer `_show_messages`.

Python regular expressions are embedded by a small backtracking matcher over
`List Char` covering exactly the constructs the source patterns use: literals,
ordered alternation, greedy `+`/`*`/`?` over single character classes, optional
groups, capturing groups over a character class `+`, and the `$` anchor
(which in Python matches at the end of the string or just before one trailing
newline).  Greedy quantifiers try the longest span first and backtrack, and
alternation tries branches left to right, matching CPython's engine on these
patterns.  `str.lower`, `str.strip`, `str.find` and slicing are embedded
directly; character classes (`\s`, `\w`, `.`) and lowercasing are modelled on
the ASCII range, which the source's patterns and vocabulary live in.
-/

/-- Python whitespace for `str.strip` and the regex class `\s`
(ASCII range: space, tab, newline, carriage return, vertical tab, form feed). -/
def isPySpace (c : Char) : Bool :=
  c = ' ' || c = '\t' || c = '\n' || c = '\r' ||
  c = Char.ofNat 11 || c = Char.ofNat 12

/-- Regex class `\w` (ASCII range): letters, digits, underscore. -/
def isWordChar (c : Char) : Bool :=
  ('a' ≤ c && c ≤ 'z') || ('A' ≤ c && c ≤ 'Z') || ('0' ≤ c && c ≤ '9') || c = '_'

/-- Regex class `.` without `re.DOTALL`: any character except a newline. -/
def isDotChar (c : Char) : Bool := c ≠ '\n'

/-- The character class `[:\-]` used by the global-chat patterns. -/
def isColonDash (c : Char) : Bool := c = ':' || c = '-'

/-- Python `str.strip()` on a character list: drop leading and trailing
whitespace. -/
def stripList (cs : List Char) : List Char :=
  ((cs.dropWhile isPySpace).reverse.dropWhile isPySpace).reverse

/-- Python `str.lower()` restricted to ASCII, character-wise
(`Char.toLower` is exactly the ASCII case map). -/
def pyLower (cs : List Char) : List Char := cs.map Char.toLower

/-- Helper for `findSub`: first index `≥ i` at which `needle` occurs. -/
def findSubFrom (needle : List Char) : List Char → Nat → Option Nat
  | hay, i =>
    if needle.isPrefixOf hay then some i
    else
      match hay with
      | [] => none
      | _ :: t => findSubFrom needle t (i + 1)

/-- Python `str.find(sub)`: index of the first occurrence of `needle` in
`hay`, or `none` where Python returns `-1`. -/
def findSub (hay needle : List Char) : Option Nat :=
  findSubFrom needle hay 0

/-- Capture groups.  The source patterns use at most groups 1 and 2. -/
structure Caps where
  g1 : Option (List Char) := none
  g2 : Option (List Char) := none
deriving DecidableEq

/-- Record a capture for group `n` (group 1 or group 2). -/
def setG : Nat → List Char → Caps → Caps
  | 1, v, c => { c with g1 := some v }
  | _, v, c => { c with g2 := some v }

/-- Abstract syntax of the regex fragment used by `main.py`:
literals, ordered alternation, greedy class quantifiers, optional
subpatterns, capturing groups over a class `+`, and the `$` anchor. -/
inductive RE where
  | eps : RE
  | fail : RE
  | lits : List Char → RE
  | plusC : (Char → Bool) → RE
  | starC : (Char → Bool) → RE
  | optC : (Char → Bool) → RE
  | opt : RE → RE
  | alt : RE → RE → RE
  | seq : RE → RE → RE
  | capPlus : Nat → (Char → Bool) → RE
  | eol : RE

/-- Backtracking matcher in continuation-passing style.  The continuation
receives the unconsumed suffix and the captures so far.  Greedy quantifiers
enumerate candidate span lengths longest-first; alternation tries the left
branch first; `eol` accepts exactly at the end of input or before a single
trailing newline (Python `$`). -/
def reMatch : RE → List Char → Caps → (List Char → Caps → Option Caps) → Option Caps
  | .eps, cs, caps, k => k cs caps
  | .fail, _, _, _ => none
  | .lits s, cs, caps, k =>
    if s.isPrefixOf cs then k (cs.drop s.length) caps else none
  | .plusC p, cs, caps, k =>
    let m := (cs.takeWhile p).length
    (List.range m).findSome? (fun i => k (cs.drop (m - i)) caps)
  | .starC p, cs, caps, k =>
    let m := (cs.takeWhile p).length
    (List.range (m + 1)).findSome? (fun i => k (cs.drop (m - i)) caps)
  | .optC p, cs, caps, k =>
    match cs with
    | [] => k [] caps
    | c :: t => if p c then (k t caps).orElse (fun _ => k (c :: t) caps) else k (c :: t) caps
  | .opt r, cs, caps, k =>
    (reMatch r cs caps k).orElse (fun _ => k cs caps)
  | .alt a b, cs, caps, k =>
    (reMatch a cs caps k).orElse (fun _ => reMatch b cs caps k)
  | .seq a b, cs, caps, k =>
    reMatch a cs caps (fun rest caps2 => reMatch b rest caps2 k)
  | .capPlus n p, cs, caps, k =>
    let m := (cs.takeWhile p).length
    (List.range m).findSome? (fun i => k (cs.drop (m - i)) (setG n (cs.take (m - i)) caps))
  | .eol, cs, caps, k =>
    if cs = [] ∨ cs = ['\n'] then k cs caps else none

/-- `re.match(pattern, s)`: anchored at the start, returning the captures of
the first match in the engine's search order. -/
def reMatchFull (r : RE) (cs : List Char) : Option Caps :=
  reMatch r cs {} (fun _ caps => some caps)

/-- Literal made from a string. -/
def wlit (s : String) : RE := .lits s.data

/-- Sequence of a list of regex pieces. -/
def rseq (rs : List RE) : RE := rs.foldr .seq .eps

/-- Ordered alternation of a list of branches (leftmost tried first). -/
def ralt (rs : List RE) : RE := rs.foldr .alt .fail

/-- The regex `\s+`. -/
def wsp : RE := .plusC isPySpace

/-- The regex `\s*`. -/
def wss : RE := .starC isPySpace

/-- DM pattern `^(?:dm|message|msg|whisper|pm)\s+(\w+)\s+(.+)$`. -/
def dmP1 : RE := rseq
  [ralt [wlit "dm", wlit "message", wlit "msg", wlit "whisper", wlit "pm"],
   wsp, .capPlus 1 isWordChar, wsp, .capPlus 2 isDotChar, .eol]

/-- DM pattern `^tell\s+(\w+)\s+(?:that\s+)?(.+)$`. -/
def dmP2 : RE := rseq
  [wlit "tell", wsp, .capPlus 1 isWordChar, wsp,
   .opt (rseq [wlit "that", wsp]), .capPlus 2 isDotChar, .eol]

/-- DM pattern `^send\s+(?:a\s+)?(?:message|dm|pm)\s+to\s+(\w+)\s+(?:saying\s+)?(.+)$`. -/
def dmP3 : RE := rseq
  [wlit "send", wsp, .opt (rseq [wlit "a", wsp]),
   ralt [wlit "message", wlit "dm", wlit "pm"], wsp, wlit "to", wsp,
   .capPlus 1 isWordChar, wsp, .opt (rseq [wlit "saying", wsp]),
   .capPlus 2 isDotChar, .eol]

/-- DM pattern `^(?:message|dm|pm)\s+(\w+)\s+(?:and\s+)?(?:say|tell\s+them)\s+(.+)$`. -/
def dmP4 : RE := rseq
  [ralt [wlit "message", wlit "dm", wlit "pm"], wsp, .capPlus 1 isWordChar, wsp,
   .opt (rseq [wlit "and", wsp]),
   ralt [wlit "say", rseq [wlit "tell", wsp, wlit "them"]],
   wsp, .capPlus 2 isDotChar, .eol]

/-- DM pattern `^let\s+(\w+)\s+know\s+(?:that\s+)?(.+)$`. -/
def dmP5 : RE := rseq
  [wlit "let", wsp, .capPlus 1 isWordChar, wsp, wlit "know", wsp,
   .opt (rseq [wlit "that", wsp]), .capPlus 2 isDotChar, .eol]

/-- The DM patterns, in source order. -/
def dmPatterns : List RE := [dmP1, dmP2, dmP3, dmP4, dmP5]

/-- Global-chat pattern `^global\s+(.+)$`. -/
def gP1 : RE := rseq [wlit "global", wsp, .capPlus 1 isDotChar, .eol]

/-- Global-chat pattern
`^(?:say|tell|broadcast|shout)\s+(?:to\s+)?(?:everyone|all|everybody|the world)\s*[:\-]?\s*(.+)$`. -/
def gP2 : RE := rseq
  [ralt [wlit "say", wlit "tell", wlit "broadcast", wlit "shout"], wsp,
   .opt (rseq [wlit "to", wsp]),
   ralt [wlit "everyone", wlit "all", wlit "everybody", wlit "the world"],
   wss, .optC isColonDash, wss, .capPlus 1 isDotChar, .eol]

/-- Global-chat pattern `^(?:to\s+)?(?:everyone|all|everybody)[:\-]?\s+(.+)$`. -/
def gP3 : RE := rseq
  [.opt (rseq [wlit "to", wsp]),
   ralt [wlit "everyone", wlit "all", wlit "everybody"],
   .optC isColonDash, wsp, .capPlus 1 isDotChar, .eol]

/-- The global-chat patterns, in source order. -/
def globalPatterns : List RE := [gP1, gP2, gP3]

/-- Body extraction shared by the DM and global parsers: locate the lowercased
body in the lowercased text with `str.find` and slice the original input from
that offset; when the offset is not positive, fall back to the lowercased
match (`message = text[msg_start:] if msg_start > 0 else match.group(2)`). -/
def sliceBody (textData tl body : List Char) : List Char :=
  let msgStart := (findSub tl body).getD 0
  if msgStart > 0 then textData.drop msgStart else body

/-- First-match-wins walk over the DM patterns (`_parse_dm_intent`'s loop):
the first pattern that matches produces the result, later patterns are not
tried. -/
def tryDmPatterns (textData tl : List Char) : List RE → Option (String × String)
  | [] => none
  | p :: ps =>
    match reMatchFull p tl with
    | some caps =>
      match caps.g1, caps.g2 with
      | some r, some b => some (String.mk r, String.mk (sliceBody textData tl b))
      | _, _ => none
    | none => tryDmPatterns textData tl ps

/-- `_parse_dm_intent`: parse a natural-language DM.  Classification runs on
`text.lower().strip()`; the recipient is capture group 1 of the first matching
pattern and the body is extracted by `sliceBody`. -/
def parse_dm_intent (text : String) : Option (String × String) :=
  let tl := stripList (pyLower text.data)
  tryDmPatterns text.data tl dmPatterns

/-- The inbox vocabulary of `_parse_inbox_intent`, in source order. -/
def inboxPhrases : List String :=
  ["inbox", "messages", "mail", "dms", "check messages", "check my messages",
   "any messages", "do i have messages", "who messaged me", "who wrote me",
   "show messages", "read messages", "unread", "my inbox"]

/-- `_parse_inbox_intent`: true when any inbox phrase occurs as a substring of
the lowercased, stripped text. -/
def parse_inbox_intent (text : String) : Bool :=
  let tl := stripList (pyLower text.data)
  inboxPhrases.any (fun p => (findSub tl p.data).isSome)

/-- First-match-wins walk over the global-chat patterns
(`_parse_global_chat_intent`'s loop). -/
def tryGlobalPatterns (textData tl : List Char) : List RE → Option String
  | [] => none
  | p :: ps =>
    match reMatchFull p tl with
    | some caps =>
      match caps.g1 with
      | some b => some (String.mk (sliceBody textData tl b))
      | none => none
    | none => tryGlobalPatterns textData tl ps

/-- `_parse_global_chat_intent`: parse an intent to send global chat. -/
def parse_global_chat_intent (text : String) : Option String :=
  let tl := stripList (pyLower text.data)
  tryGlobalPatterns text.data tl globalPatterns

/-- Intent Classification Result for a non-slash line (the data model's
tagged variant, minus the slash commands which never reach the router). -/
inductive Intent where
  | DirectMessage (recipient body : String)
  | InboxCheck
  | GlobalBroadcast (body : String)
  | GameplayAction (raw : String)
deriving DecidableEq

/-- The chat-intent priority chain of `_handle_chat_intent` followed by the
gameplay fallback of `_game_loop`: DM patterns first, then the inbox
substring check, then the global-chat patterns, and otherwise the raw text
becomes a gameplay action. -/
def classifyChat (text : String) : Intent :=
  match parse_dm_intent text with
  | some (r, m) => .DirectMessage r m
  | none =>
    if parse_inbox_intent text then .InboxCheck
    else
      match parse_global_chat_intent text with
      | some m => .GlobalBroadcast m
      | none => .GameplayAction text

/-- The recognized slash commands that keep the loop running
(the quit family is a separate, terminating step). -/
inductive SlashCmd where
  | look | inventory | rest | messages | chat | help
deriving DecidableEq

/-- What one iteration of `_game_loop` decides to do with one input line. -/
inductive LoopStep where
  | reprompt
  | terminate
  | slash (c : SlashCmd)
  | unknownCommand (raw : String)
  | dm (recipient body : String)
  | inbox
  | globalMsg (body : String)
  | gameplay (raw : String)
deriving DecidableEq

/-- The dispatch decision of one `_game_loop` iteration for the line
`action`: empty input re-prompts; then `action_lower = action.lower().strip()`
is tested against the slash aliases; any other line whose lowered, stripped
form starts with `/` is an unrecognized command; otherwise the chat-intent
chain runs and unmatched text becomes a gameplay action carrying the raw
input. -/
def routeLine (action : String) : LoopStep :=
  if action = "" then .reprompt
  else
    let al : List Char := stripList (pyLower action.data)
    if al = "/quit".data ∨ al = "/exit".data ∨ al = "/q".data then .terminate
    else if al = "/look".data ∨ al = "/l".data then .slash .look
    else if al = "/inventory".data ∨ al = "/inv".data ∨ al = "/i".data then .slash .inventory
    else if al = "/rest".data ∨ al = "/r".data then .slash .rest
    else if al = "/messages".data ∨ al = "/m".data ∨ al = "/inbox".data then .slash .messages
    else if al = "/chat".data ∨ al = "/c".data then .slash .chat
    else if al = "/help".data ∨ al = "/h".data ∨ al = "/?".data then .slash .help
    else if al.head? = some '/' then .unknownCommand action
    else
      match classifyChat action with
      | .DirectMessage r m => .dm r m
      | .InboxCheck => .inbox
      | .GlobalBroadcast m => .globalMsg m
      | .GameplayAction raw => .gameplay raw

/-- One rendered terminal line, tagged by the print call that produced it
(rich markup and emoji are abstracted away; the payload strings carry the
text the call formats). -/
inductive OutLine where
  | errorLine (msg : String)
  | successLine (msg : String)
  | plainLine (msg : String)
  | narrativeLine (text style : String)
  | msgLine (sender content : String)
  | moreSummary (n : Nat)
  | chatLine (sender content : String)
  | suggestionLine (i : Nat) (action : String)
deriving DecidableEq

/-- Mood-to-style table of `print_narrative`, with `"white"` for unknown
moods (`mood_styles.get(mood, "white")`). -/
def moodStyle (mood : String) : String :=
  if mood = "neutral" then "white"
  else if mood = "tense" then "yellow"
  else if mood = "danger" then "red"
  else if mood = "romantic" then "magenta"
  else if mood = "mysterious" then "cyan"
  else if mood = "triumphant" then "green"
  else if mood = "sad" then "blue"
  else "white"

/-- `print_suggestions`: nothing when the list is empty, otherwise a header
and one numbered line per action (numbering starts at 1). -/
def printSuggestions (actions : List String) : List OutLine :=
  if actions = [] then []
  else .plainLine "Suggested actions:" ::
    (actions.enum.map (fun p => .suggestionLine (p.1 + 1) p.2))

/-- Python truthiness of an optional string (`None` and `""` are falsy). -/
def truthyOpt (o : Option String) : Bool :=
  match o with
  | some s => s ≠ ""
  | none => false

/-- Response payload of the generic action endpoint, as read by
`_do_action` (each field is a `dict.get`, hence optional). -/
structure ActionResult where
  error : Option String := none
  narrative : Option String := none
  mood : Option String := none
  suggested_actions : Option (List String) := none
  requires_account : Option Bool := none
  account_prompt_incentive : Option String := none
deriving DecidableEq

/-- `_do_action`: a failed Gateway call is caught and rendered as the single
line `Action failed: …`; a truthy `error` field renders that error; otherwise
the narrative panel, suggestions and, for guests, the account upsell are
rendered. -/
def doActionOut (resp : Except String ActionResult) : List OutLine :=
  match resp with
  | .error e => [.errorLine ("Action failed: " ++ e)]
  | .ok r =>
    if truthyOpt r.error then [.errorLine (r.error.getD "")]
    else
      [.narrativeLine (r.narrative.getD "") (moodStyle (r.mood.getD "neutral"))]
      ++ printSuggestions (r.suggested_actions.getD [])
      ++ (if r.requires_account.getD false then
            [.plainLine (r.account_prompt_incentive.getD "Sign up to continue!"),
             .plainLine "Visit https://textlands.com to create an account"]
          else [])

/-- Response payload of `look`/`inventory`/`rest`. -/
structure NarrResult where
  narrative : Option String := none
  suggested_actions : Option (List String) := none
deriving DecidableEq

/-- `_do_look`: failure renders the single line `Failed: …`. -/
def doLookOut (resp : Except String NarrResult) : List OutLine :=
  match resp with
  | .error e => [.errorLine ("Failed: " ++ e)]
  | .ok r =>
    [.narrativeLine (r.narrative.getD "You look around...") (moodStyle "neutral")]
    ++ printSuggestions (r.suggested_actions.getD [])

/-- `_do_inventory`: failure renders the single line `Failed: …`. -/
def doInventoryOut (resp : Except String NarrResult) : List OutLine :=
  match resp with
  | .error e => [.errorLine ("Failed: " ++ e)]
  | .ok r => [.narrativeLine (r.narrative.getD "You check your belongings...") (moodStyle "neutral")]

/-- `_do_rest`: failure renders the single line `Failed: …`. -/
def doRestOut (resp : Except String NarrResult) : List OutLine :=
  match resp with
  | .error e => [.errorLine ("Failed: " ++ e)]
  | .ok r => [.narrativeLine (r.narrative.getD "You rest for a while...") (moodStyle "neutral")]

/-- One pending message as read by `_show_messages`. -/
structure Msg where
  sender_name : Option String := none
  sender_id : Option String := none
  content : Option String := none
deriving DecidableEq

/-- Render one pending message:
`msg.get("sender_name", msg.get("sender_id", "Unknown"))` and the content. -/
def renderMsg (m : Msg) : OutLine :=
  .msgLine (m.sender_name.getD (m.sender_id.getD "Unknown")) (m.content.getD "")

/-- `_show_messages`: a failed fetch renders one error line; an empty inbox
renders the empty notice; otherwise a count header, the first 10 messages,
a `...and n more` summary when more than 10 exist, and the reply hint. -/
def show_messages (resp : Except String (List Msg)) : List OutLine :=
  match resp with
  | .error e => [.errorLine ("Failed to load messages: " ++ e)]
  | .ok messages =>
    if messages = [] then [.plainLine "No unread messages. Your inbox is empty."]
    else
      [.plainLine (toString messages.length ++ " Message(s):")]
      ++ (messages.take 10).map renderMsg
      ++ (if messages.length > 10 then [.moreSummary (messages.length - 10)] else [])
      ++ [.plainLine "Reply: message <name> <your reply>"]

/-- One global-chat message as read by `_show_chat`. -/
structure ChatMsg where
  sender_name : Option String := none
  message : Option String := none
deriving DecidableEq

/-- `_show_chat`: a failed fetch renders one error line; otherwise the
fetched messages are rendered oldest-first. -/
def show_chat (resp : Except String (List ChatMsg)) : List OutLine :=
  match resp with
  | .error e => [.errorLine ("Failed to load chat: " ++ e)]
  | .ok ms =>
    if ms = [] then [.plainLine "No recent chat messages."]
    else
      [.plainLine "Recent Global Chat:"]
      ++ ms.reverse.map (fun m => .chatLine (m.sender_name.getD "Unknown") (m.message.getD ""))
      ++ [.plainLine ""]

/-- Response payload of `send_dm` / `send_global_chat`. -/
structure SendResult where
  success : Option Bool := none
  error : Option String := none
deriving DecidableEq

/-- The DM branch of `_handle_chat_intent`: a failed call renders the single
line `Failed to send: …`; otherwise success or the server-reported error. -/
def sendDmOut (recipient : String) (resp : Except String SendResult) : List OutLine :=
  match resp with
  | .error e => [.errorLine ("Failed to send: " ++ e)]
  | .ok r =>
    if r.success.getD false then [.successLine ("Message sent to " ++ recipient)]
    else [.errorLine (r.error.getD "Failed to send message")]

/-- The global branch of `_handle_chat_intent`. -/
def sendGlobalOut (resp : Except String SendResult) : List OutLine :=
  match resp with
  | .error e => [.errorLine ("Failed to send: " ++ e)]
  | .ok r =>
    if r.success.getD false then [.successLine "Sent to global chat"]
    else [.errorLine (r.error.getD "Failed to send")]

/-- Stub for the Gateway calls one loop iteration may perform: each field is
the outcome the remote call would produce during this iteration (`.error`
models a raised exception). -/
structure Gw where
  doAction : String → Except String ActionResult := fun _ => .ok {}
  look : Except String NarrResult := .ok {}
  inventory : Except String NarrResult := .ok {}
  restCall : Except String NarrResult := .ok {}
  pendingMessages : Except String (List Msg) := .ok []
  globalChat : Except String (List ChatMsg) := .ok []
  sendDm : String → String → Except String SendResult := fun _ _ => .ok {}
  sendGlobal : String → Except String SendResult := fun _ => .ok {}

/-- The static help text of `_show_help`, abstracted to one line. -/
def helpOut : List OutLine := [.plainLine "help"]

/-- One full `_game_loop` iteration on the line `action`: the rendered output
and whether the loop continues (`false` only for the quit family). -/
def loopIter (gw : Gw) (action : String) : List OutLine × Bool :=
  match routeLine action with
  | .reprompt => ([], true)
  | .terminate => ([.successLine "Farewell, adventurer!"], false)
  | .slash .look => (doLookOut gw.look, true)
  | .slash .inventory => (doInventoryOut gw.inventory, true)
  | .slash .rest => (doRestOut gw.restCall, true)
  | .slash .messages => (show_messages gw.pendingMessages, true)
  | .slash .chat => (show_chat gw.globalChat, true)
  | .slash .help => (helpOut, true)
  | .unknownCommand raw => ([.errorLine ("Unknown command: " ++ raw)], true)
  | .dm r m => (sendDmOut r (gw.sendDm r m), true)
  | .inbox => (show_messages gw.pendingMessages, true)
  | .globalMsg m => (sendGlobalOut (gw.sendGlobal m), true)
  | .gameplay raw => (doActionOut (gw.doAction raw), true)

/-- The best-effort unread-count notice at `_game_loop` entry: a failed fetch
is swallowed silently (`except: pass`), a positive count renders one notice. -/
def unreadNotice (resp : Except String Nat) : List OutLine :=
  match resp with
  | .error _ => []
  | .ok n => if n > 0 then [.plainLine ("You have " ++ toString n ++ " unread message(s).")] else []

/-- Stored user info (`set_user_info` payload). -/
structure UserInfo where
  user_id : String
  email : String
  display_name : String
deriving DecidableEq

/-- Stored current session (`set_current_session` payload; each field is a
`dict.get` of the server session, hence optional). -/
structure CurrentSession where
  realm_id : Option String := none
  realm_name : Option String := none
  character_id : Option String := none
  character_name : Option String := none
deriving DecidableEq

/-- The persisted Identity/Session Store. -/
structure Store where
  guest_id : Option String := none
  api_key : Option String := none
  session_token : Option String := none
  user_info : Option UserInfo := none
  current_session : Option CurrentSession := none
deriving DecidableEq

/-- One device-auth poll response (`poll_cli_token`): a status string plus
the payload fields the authorized branch reads. -/
structure PollResult where
  status : String
  session_token : String := ""
  user_id : String := ""
  email : String := ""
  display_name : String := ""
deriving DecidableEq

/-- Terminal state of the `login` polling loop. -/
inductive LoginResult where
  | authenticated
  | expiredErr
  | timeoutErr
deriving DecidableEq

/-- The authorized branch of the polling loop: persist the session token and
user info and set the guest identity to the returned `user_id`. -/
def persistAuth (r : PollResult) (st : Store) : Store :=
  { st with
    session_token := some r.session_token,
    user_info := some ⟨r.user_id, r.email, r.display_name⟩,
    guest_id := some r.user_id }

/-- The body of the polling loop of `login`, run over the list of remaining
poll times: an `authorized` poll persists and authenticates, an `expired`
poll fails, anything else (`pending` included) continues; an exhausted
schedule is the client-enforced timeout, leaving the store untouched. -/
def runPolls (poll : Nat → PollResult) (st : Store) : List Nat → LoginResult × Store
  | [] => (.timeoutErr, st)
  | t :: ts =>
    let r := poll t
    if r.status = "authorized" then (.authenticated, persistAuth r st)
    else if r.status = "expired" then (.expiredErr, st)
    else runPolls poll st ts

/-- The poll schedule induced by the loop
`while time.time() - start_time < expires_in: time.sleep(2); poll()` with the
explicit clock advancing by exactly 2 per iteration: the guard is evaluated
at elapsed times 0, 2, 4, …, so iteration `k` (0-based) runs iff
`2*k < expires_in` and polls at elapsed time `2*(k+1)`. -/
def pollTimes (expires_in : Nat) : List Nat :=
  (List.range ((expires_in + 1) / 2)).map (fun k => 2 * (k + 1))

/-- The whole polling phase of `login` under an explicit clock. -/
def loginPoll (poll : Nat → PollResult) (expires_in : Nat) (st : Store) :
    LoginResult × Store :=
  runPolls poll st (pollTimes expires_in)

/-- Server session payload inside the `start_session` result. -/
structure SessionData where
  world_id : Option String := none
  world_name : Option String := none
  character_id : Option String := none
  character_name : Option String := none
deriving DecidableEq

/-- `start_session` result (`result.get("session", {})`). -/
structure StartResult where
  session : Option SessionData := none
deriving DecidableEq

/-- What `play` stores after a successful session start: the server session's
fields, with the API's `world_*` keys renamed to `realm_*`. -/
def toCurrent (sd : SessionData) : CurrentSession :=
  { realm_id := sd.world_id, realm_name := sd.world_name,
    character_id := sd.character_id, character_name := sd.character_name }

/-- The interactive and remote outcomes one `play` invocation consumes. -/
structure PlayEnv where
  realmArg : Option String := none
  resumeAnswer : String := "y"
  selectRealmResult : Option String := none
  campfire : Except String Unit := .ok ()
  selectCharResult : Option String := none
  startSession : Except String StartResult := .ok {}

/-- How one `play` invocation ended. -/
inductive PlayOutcome where
  | resumed
  | noRealm
  | campfireFailed
  | noCharacter
  | startFailed
  | started
deriving DecidableEq

/-- Control flow of `play`: offer resume when a stored session has a truthy
`realm_id` and no truthy realm argument was given; on `"y"` enter the game
loop on the stored session; otherwise fall through to realm selection,
campfire, character selection and `start_session`, storing the new current
session only after `start_session` succeeds.  Every early exit leaves the
store untouched. -/
def play (env : PlayEnv) (st : Store) : PlayOutcome × Store :=
  let resumeOffered :=
    (match st.current_session with
     | some cur => truthyOpt cur.realm_id
     | none => false) && !(truthyOpt env.realmArg)
  if resumeOffered ∧ env.resumeAnswer = "y" then (.resumed, st)
  else
    let realmOpt := if truthyOpt env.realmArg then env.realmArg else env.selectRealmResult
    match realmOpt with
    | none => (.noRealm, st)
    | some _ =>
      match env.campfire with
      | .error _ => (.campfireFailed, st)
      | .ok _ =>
        match env.selectCharResult with
        | none => (.noCharacter, st)
        | some _ =>
          match env.startSession with
          | .error _ => (.startFailed, st)
          | .ok result =>
            (.started, { st with current_session := some (toCurrent (result.session.getD {})) })
/-- Idempotence helper: converting a valid codepoint back to `Nat`. -/
theorem char_toNat_ofNat {n : Nat} (h : n.isValidChar) : (Char.ofNat n).toNat = n := by
  rw [Char.ofNat, dif_pos h]; rfl

/-- ASCII lowercasing is idempotent. -/
theorem toLower_toLower (c : Char) : Char.toLower (Char.toLower c) = Char.toLower c := by
  unfold Char.toLower
  by_cases h : c.toNat ≥ 65 ∧ c.toNat ≤ 90
  · rw [if_pos h]
    have hv : (c.toNat + 32).isValidChar := Or.inl (by omega)
    have ht : (Char.ofNat (c.toNat + 32)).toNat = c.toNat + 32 := char_toNat_ofNat hv
    rw [ht, if_neg (by omega)]
  · rw [if_neg h, if_neg h]

/-- Members of a stripped list are members of the original list. -/
theorem mem_of_mem_stripList {c : Char} {xs : List Char} (h : c ∈ stripList xs) : c ∈ xs := by
  unfold stripList at h
  rw [List.mem_reverse] at h
  have h2 := (List.dropWhile_sublist (l := (xs.dropWhile isPySpace).reverse) isPySpace).subset h
  rw [List.mem_reverse] at h2
  exact (List.dropWhile_sublist (l := xs) isPySpace).subset h2

/-- Every character of the lowered, stripped text is fixed by lowercasing. -/
theorem stripLower_fixed {c : Char} {l : List Char}
    (h : c ∈ stripList (pyLower l)) : Char.toLower c = c := by
  have h2 : c ∈ pyLower l := mem_of_mem_stripList h
  unfold pyLower at h2
  rcases List.mem_map.mp h2 with ⟨y, _, rfl⟩
  exact toLower_toLower y

/-- Syntactic condition on a pattern: every capture group is group 1 or 2 and
captures a `+` over the class `exp n` expected for its group number. -/
def CapSpec (exp : Nat → Char → Bool) : RE → Prop
  | .opt r => CapSpec exp r
  | .alt a b => CapSpec exp a ∧ CapSpec exp b
  | .seq a b => CapSpec exp a ∧ CapSpec exp b
  | .capPlus n p => (n = 1 ∨ n = 2) ∧ p = exp n
  | _ => True

/-- Semantic invariant on captures: every recorded group `n` is a nonempty
span whose characters satisfy the expected class `exp n` and the ambient
character predicate `q`. -/
def CapsGood (q : Char → Bool) (exp : Nat → Char → Bool) (caps : Caps) : Prop :=
  (∀ w, caps.g1 = some w → w ≠ [] ∧ ∀ c ∈ w, exp 1 c = true ∧ q c = true) ∧
  (∀ w, caps.g2 = some w → w ≠ [] ∧ ∀ c ∈ w, exp 2 c = true ∧ q c = true)

/-- Characters of a short enough take lie inside the matching `takeWhile`
span, hence satisfy its predicate. -/
theorem mem_take_of_le_takeWhile {p : Char → Bool} :
    ∀ {cs : List Char} {j : Nat} {c : Char},
      c ∈ cs.take j → j ≤ (cs.takeWhile p).length → p c = true := by
  intro cs
  induction cs with
  | nil => intro j c hm _; simp at hm
  | cons a t ih =>
    intro j c hm hj
    cases j with
    | zero => simp at hm
    | succ j =>
      by_cases hp : p a
      · rw [List.takeWhile_cons_of_pos hp] at hj
        simp only [List.take_succ_cons, List.mem_cons] at hm
        rcases hm with rfl | hm
        · exact hp
        · exact ih hm (Nat.le_of_succ_le_succ hj)
      · rw [List.takeWhile_cons_of_neg hp] at hj
        simp at hj

/-- Unfolding `Option.orElse` into a disjunction. -/
theorem orElse_eq_some {α : Type} {a : Option α} {f : Unit → Option α} {x : α}
    (h : a.orElse f = some x) : a = some x ∨ f () = some x := by
  cases a with
  | none => right; simpa [Option.orElse] using h
  | some v => left; simpa [Option.orElse] using h

/-- A positive take from a nonempty list is nonempty. -/
theorem take_ne_nil {α : Type} {cs : List α} {j : Nat}
    (hcs : cs ≠ []) (hj : j ≠ 0) : cs.take j ≠ [] := by
  cases cs with
  | nil => exact absurd rfl hcs
  | cons a t =>
    cases j with
    | zero => exact absurd rfl hj
    | succ j => simp

/-- Core invariant of the matcher: on input whose characters satisfy `q`,
starting from good captures, and with a continuation that preserves
goodness, a successful match of a `CapSpec`-conforming pattern yields good
captures.  In particular every recorded group is a nonempty span of its
class drawn from the input. -/
theorem reMatch_caps_good (q : Char → Bool) (exp : Nat → Char → Bool) :
    ∀ r : RE, CapSpec exp r →
    ∀ (cs : List Char) (caps : Caps) (k : List Char → Caps → Option Caps) (res : Caps),
      (∀ c ∈ cs, q c = true) →
      CapsGood q exp caps →
      (∀ rest caps2 res2, (∀ c ∈ rest, q c = true) → CapsGood q exp caps2 →
        k rest caps2 = some res2 → CapsGood q exp res2) →
      reMatch r cs caps k = some res → CapsGood q exp res := by
  intro r
  induction r with
  | eps =>
    intro _ cs caps k res hq hc hk h
    exact hk cs caps res hq hc h
  | fail =>
    intro _ cs caps k res _ _ _ h
    simp [reMatch] at h
  | lits s =>
    intro _ cs caps k res hq hc hk h
    simp only [reMatch] at h
    split at h
    · exact hk _ caps res (fun c hm => hq c (List.mem_of_mem_drop hm)) hc h
    · exact absurd h (by simp)
  | plusC p =>
    intro _ cs caps k res hq hc hk h
    simp only [reMatch] at h
    rcases List.exists_of_findSome?_eq_some h with ⟨i, _, hi⟩
    exact hk _ caps res (fun c hm => hq c (List.mem_of_mem_drop hm)) hc hi
  | starC p =>
    intro _ cs caps k res hq hc hk h
    simp only [reMatch] at h
    rcases List.exists_of_findSome?_eq_some h with ⟨i, _, hi⟩
    exact hk _ caps res (fun c hm => hq c (List.mem_of_mem_drop hm)) hc hi
  | optC p =>
    intro _ cs caps k res hq hc hk h
    cases cs with
    | nil =>
      simp only [reMatch] at h
      exact hk [] caps res (by simp) hc h
    | cons a t =>
      simp only [reMatch] at h
      by_cases hp : p a
      · rw [if_pos hp] at h
        rcases orElse_eq_some h with h2 | h2
        · exact hk t caps res (fun c hm => hq c (List.mem_cons_of_mem a hm)) hc h2
        · exact hk (a :: t) caps res hq hc h2
      · rw [if_neg hp] at h
        exact hk (a :: t) caps res hq hc h
  | opt r ih =>
    intro hs cs caps k res hq hc hk h
    simp only [reMatch] at h
    rcases orElse_eq_some h with h2 | h2
    · exact ih hs cs caps k res hq hc hk h2
    · exact hk cs caps res hq hc h2
  | alt a b iha ihb =>
    intro hs cs caps k res hq hc hk h
    simp only [reMatch] at h
    rcases orElse_eq_some h with h2 | h2
    · exact iha hs.1 cs caps k res hq hc hk h2
    · exact ihb hs.2 cs caps k res hq hc hk h2
  | seq a b iha ihb =>
    intro hs cs caps k res hq hc hk h
    simp only [reMatch] at h
    exact iha hs.1 cs caps _ res hq hc
      (fun rest caps2 res2 hq2 hc2 h2 => ihb hs.2 rest caps2 k res2 hq2 hc2 hk h2) h
  | capPlus n p =>
    intro hs cs caps k res hq hc hk h
    simp only [reMatch] at h
    rcases List.exists_of_findSome?_eq_some h with ⟨i, hmem, hi⟩
    have him : i < (cs.takeWhile p).length := List.mem_range.mp hmem
    set m := (cs.takeWhile p).length with hm
    have hspan : ∀ c ∈ cs.take (m - i), exp n c = true ∧ q c = true := by
      intro c hmc
      refine ⟨?_, hq c (List.mem_of_mem_take hmc)⟩
      rw [← hs.2]
      exact mem_take_of_le_takeWhile hmc (Nat.sub_le m i)
    have hne : cs.take (m - i) ≠ [] := by
      apply take_ne_nil
      · intro hnil
        rw [hnil] at hm
        simp [hm] at him
      · omega
    have hcg : CapsGood q exp (setG n (cs.take (m - i)) caps) := by
      rcases hs.1 with rfl | rfl
      · constructor
        · intro w hw
          have hw2 : cs.take (m - i) = w := Option.some.inj hw
          rw [← hw2]
          exact ⟨hne, hspan⟩
        · intro w hw
          exact hc.2 w hw
      · constructor
        · intro w hw
          exact hc.1 w hw
        · intro w hw
          have hw2 : cs.take (m - i) = w := Option.some.inj hw
          rw [← hw2]
          exact ⟨hne, hspan⟩
    exact hk _ _ res (fun c hm2 => hq c (List.mem_of_mem_drop hm2)) hcg hi
  | eol =>
    intro _ cs caps k res hq hc hk h
    simp only [reMatch] at h
    split at h
    · exact hk cs caps res hq hc h
    · exact absurd h (by simp)

/-- Specialisation of `reMatch_caps_good` to a whole `re.match` call. -/
theorem reMatchFull_caps_good {q : Char → Bool} {exp : Nat → Char → Bool}
    {r : RE} (hr : CapSpec exp r) {cs : List Char}
    (hq : ∀ c ∈ cs, q c = true) {caps : Caps}
    (h : reMatchFull r cs = some caps) : CapsGood q exp caps := by
  refine reMatch_caps_good q exp r hr cs {} _ caps hq ?_ ?_ h
  · constructor
    · intro w hw
      cases hw
    · intro w hw
      cases hw
  · intro rest caps2 res2 _ hc2 h2
    cases Option.some.inj h2
    exact hc2

/-- Expected capture classes of the DM patterns: group 1 is `(\w+)`,
group 2 is `(.+)`. -/
def expDM : Nat → Char → Bool := fun n => if n = 1 then isWordChar else isDotChar

/-- Expected capture classes of the global-chat patterns: group 1 is `(.+)`. -/
def expG : Nat → Char → Bool := fun _ => isDotChar

/-- Every DM pattern conforms to `expDM`. -/
theorem capSpec_dmPatterns : ∀ p ∈ dmPatterns, CapSpec expDM p := by
  intro p hp
  simp only [dmPatterns, List.mem_cons, List.not_mem_nil, or_false] at hp
  rcases hp with rfl | rfl | rfl | rfl | rfl <;>
    simp [CapSpec, dmP1, dmP2, dmP3, dmP4, dmP5, rseq, ralt, wlit, wsp, expDM]

/-- Every global-chat pattern conforms to `expG`. -/
theorem capSpec_globalPatterns : ∀ p ∈ globalPatterns, CapSpec expG p := by
  intro p hp
  simp only [globalPatterns, List.mem_cons, List.not_mem_nil, or_false] at hp
  rcases hp with rfl | rfl | rfl <;>
    simp [CapSpec, gP1, gP2, gP3, rseq, ralt, wlit, wsp, wss, expG]

/-- General shape of a successful DM parse: the recipient is a nonempty,
already-lowercase `\w+` token, and the body is either a suffix of the
original input sliced from a positive offset or the (lowercase) matched
group itself. -/
theorem tryDmPatterns_shape {textData tl : List Char}
    (hq : ∀ c ∈ tl, Char.toLower c = c) :
    ∀ ps : List RE, (∀ p ∈ ps, CapSpec expDM p) →
    ∀ {r m : String}, tryDmPatterns textData tl ps = some (r, m) →
      r.data ≠ [] ∧ (∀ c ∈ r.data, isWordChar c = true) ∧
      (∀ c ∈ r.data, Char.toLower c = c) ∧
      ((∃ i, 0 < i ∧ m.data = textData.drop i) ∨ ∀ c ∈ m.data, Char.toLower c = c) := by
  intro ps
  induction ps with
  | nil => intro _ r m h; simp [tryDmPatterns] at h
  | cons p pt ih =>
    intro hspec r m h
    simp only [tryDmPatterns] at h
    cases hm : reMatchFull p tl with
    | none =>
      rw [hm] at h
      exact ih (fun p2 hp2 => hspec p2 (List.mem_cons_of_mem p hp2)) h
    | some caps =>
      have hgood : CapsGood (fun c => Char.toLower c == c) expDM caps := by
        refine reMatchFull_caps_good (hspec p (List.mem_cons_self p pt)) ?_ hm
        intro c hc
        exact beq_iff_eq.mpr (hq c hc)
      obtain ⟨g1, g2⟩ := caps
      rw [hm] at h
      cases g1 with
      | none => cases h
      | some w1 =>
        cases g2 with
        | none => cases h
        | some w2 =>
          have h2 : (String.mk w1, String.mk (sliceBody textData tl w2)) = (r, m) :=
            Option.some.inj h
          obtain ⟨rfl, rfl⟩ := h2
          have hi1 := hgood.1 w1 rfl
          have hi2 := hgood.2 w2 rfl
          refine ⟨hi1.1, ?_, ?_, ?_⟩
          · intro c hc
            have := (hi1.2 c hc).1
            simpa [expDM] using this
          · intro c hc
            exact beq_iff_eq.mp (hi1.2 c hc).2
          · show (∃ i, 0 < i ∧ sliceBody textData tl w2 = textData.drop i) ∨
              ∀ c ∈ sliceBody textData tl w2, Char.toLower c = c
            unfold sliceBody
            by_cases hpos : (findSub tl w2).getD 0 > 0
            · rw [if_pos hpos]
              exact Or.inl ⟨(findSub tl w2).getD 0, hpos, rfl⟩
            · rw [if_neg hpos]
              exact Or.inr (fun c hc => beq_iff_eq.mp (hi2.2 c hc).2)

/-- General shape of a successful global-chat parse: the body is nonempty or
a suffix of the original input sliced from a positive offset. -/
theorem tryGlobalPatterns_shape {textData tl : List Char}
    (hq : ∀ c ∈ tl, Char.toLower c = c) :
    ∀ ps : List RE, (∀ p ∈ ps, CapSpec expG p) →
    ∀ {m : String}, tryGlobalPatterns textData tl ps = some m →
      m.data ≠ [] ∨ ∃ i, 0 < i ∧ m.data = textData.drop i := by
  intro ps
  induction ps with
  | nil => intro _ m h; simp [tryGlobalPatterns] at h
  | cons p pt ih =>
    intro hspec m h
    simp only [tryGlobalPatterns] at h
    cases hm : reMatchFull p tl with
    | none =>
      rw [hm] at h
      exact ih (fun p2 hp2 => hspec p2 (List.mem_cons_of_mem p hp2)) h
    | some caps =>
      have hgood : CapsGood (fun c => Char.toLower c == c) expG caps := by
        refine reMatchFull_caps_good (hspec p (List.mem_cons_self p pt)) ?_ hm
        intro c hc
        exact beq_iff_eq.mpr (hq c hc)
      obtain ⟨g1, g2⟩ := caps
      rw [hm] at h
      cases g1 with
      | none => cases h
      | some w1 =>
        have h2 : String.mk (sliceBody textData tl w1) = m := Option.some.inj h
        subst h2
        have hi1 := hgood.1 w1 rfl
        show sliceBody textData tl w1 ≠ [] ∨
          ∃ i, 0 < i ∧ sliceBody textData tl w1 = textData.drop i
        unfold sliceBody
        by_cases hpos : (findSub tl w1).getD 0 > 0
        · rw [if_pos hpos]
          exact Or.inr ⟨(findSub tl w1).getD 0, hpos, rfl⟩
        · rw [if_neg hpos]
          exact Or.inl hi1.1

/-- Convenience: the general DM-parse shape at the level of `parse_dm_intent`. -/
theorem parse_dm_intent_shape {text r m : String}
    (h : parse_dm_intent text = some (r, m)) :
    r ≠ "" ∧ (∀ c ∈ r.data, isWordChar c = true) ∧
    (∀ c ∈ r.data, Char.toLower c = c) ∧
    ((∃ i, 0 < i ∧ m.data = text.data.drop i) ∨ ∀ c ∈ m.data, Char.toLower c = c) := by
  unfold parse_dm_intent at h
  have hq : ∀ c ∈ stripList (pyLower text.data), Char.toLower c = c :=
    fun c hc => stripLower_fixed hc
  have hs := tryDmPatterns_shape hq dmPatterns capSpec_dmPatterns h
  refine ⟨?_, hs.2.1, hs.2.2.1, hs.2.2.2⟩
  intro hr
  apply hs.1
  rw [hr]

/-- C1 counterexample: the input `"tell everyone Hello World"` matches the DM
pattern `tell <w+> <body>` before the global-broadcast patterns are tried, so
the router classifies it as a DirectMessage to the player `"everyone"`, not
as a GlobalBroadcast. -/
theorem c1_counterexample :
    classifyChat "tell everyone Hello World" =
      Intent.DirectMessage "everyone" "Hello World" ∧
    classifyChat "tell everyone Hello World" ≠
      Intent.GlobalBroadcast "Hello World" := by
  exact ⟨by decide, by decide⟩

/-- C1 (amended): an input matching a global-broadcast pattern that is not
first claimed by the DM patterns or the inbox substring check is classified
GlobalBroadcast with the extracted body; the original-casing examples use
inputs that reach the global check (`"tell everyone <body>"` without
punctuation is instead captured by the DM pattern `tell <w+> <body>`, see the
counterexample). -/
theorem c1_global_broadcast :
    (∀ text m, parse_dm_intent text = none → parse_inbox_intent text = false →
      parse_global_chat_intent text = some m →
      classifyChat text = Intent.GlobalBroadcast m) ∧
    classifyChat "say to everyone Hello World" = Intent.GlobalBroadcast "Hello World" ∧
    classifyChat "global Hello World" = Intent.GlobalBroadcast "Hello World" ∧
    classifyChat "tell everyone: See You At Dawn" = Intent.GlobalBroadcast "See You At Dawn" := by
  refine ⟨?_, by decide, by decide, by decide⟩
  intro text m h1 h2 h3
  simp [classifyChat, h1, h2, h3]

/-- C1 witness: instantiation of the amended statement at `"global Hi"`. -/
theorem c1_global_broadcast_witness :
    classifyChat "global Hi" = Intent.GlobalBroadcast "Hi" :=
  c1_global_broadcast.1 "global Hi" "Hi" (by decide) (by decide) (by decide)

/-- C2: the classification chain is DM patterns, then the inbox substring
check, then the global patterns, then the gameplay fallback, first match
winning; `"message Bob who messaged me first"` contains inbox vocabulary but
is still a DirectMessage to `"bob"` because the DM check runs first, while
`"who messaged me"` matches no DM pattern and lands in InboxCheck. -/
theorem c2_priority_order :
    (∀ text r m, parse_dm_intent text = some (r, m) →
       classifyChat text = Intent.DirectMessage r m) ∧
    (∀ text, parse_dm_intent text = none → parse_inbox_intent text = true →
       classifyChat text = Intent.InboxCheck) ∧
    (∀ text m, parse_dm_intent text = none → parse_inbox_intent text = false →
       parse_global_chat_intent text = some m →
       classifyChat text = Intent.GlobalBroadcast m) ∧
    (∀ text, parse_dm_intent text = none → parse_inbox_intent text = false →
       parse_global_chat_intent text = none →
       classifyChat text = Intent.GameplayAction text) ∧
    classifyChat "message Bob who messaged me first" =
      Intent.DirectMessage "bob" "who messaged me first" ∧
    parse_inbox_intent "message Bob who messaged me first" = true ∧
    classifyChat "who messaged me" = Intent.InboxCheck := by
  refine ⟨?_, ?_, ?_, ?_, by decide, by decide, by decide⟩
  · intro text r m h1
    simp [classifyChat, h1]
  · intro text h1 h2
    simp [classifyChat, h1, h2]
  · intro text m h1 h2 h3
    simp [classifyChat, h1, h2, h3]
  · intro text h1 h2 h3
    simp [classifyChat, h1, h2, h3]

/-- C2 witness: instantiations of the ordering statement at the two spec
examples. -/
theorem c2_priority_order_witness :
    classifyChat "message Bob who messaged me first" =
      Intent.DirectMessage "bob" "who messaged me first" ∧
    classifyChat "who messaged me" = Intent.InboxCheck :=
  ⟨c2_priority_order.1 "message Bob who messaged me first" "bob" "who messaged me first"
      (by decide),
   c2_priority_order.2.1 "who messaged me" (by decide) (by decide)⟩

/-- C3: a successful DM parse yields a recipient that is a nonempty,
lowercase `\w+` token, and a body that is a verbatim suffix of the original
input when the located offset is positive, falling back to the lowercased
match otherwise; on `"Message Kira I Found The Treasure"` this gives
recipient `"kira"` and the original-cased body, and on `"DM dm DM"` the
offset is 0 so the lowercased match `"dm"` is returned. -/
theorem c3_dm_extraction :
    (∀ text r m, parse_dm_intent text = some (r, m) →
       r ≠ "" ∧ (∀ c ∈ r.data, isWordChar c = true) ∧
       (∀ c ∈ r.data, Char.toLower c = c) ∧
       ((∃ i, 0 < i ∧ m.data = text.data.drop i) ∨ ∀ c ∈ m.data, Char.toLower c = c)) ∧
    parse_dm_intent "Message Kira I Found The Treasure" =
      some ("kira", "I Found The Treasure") ∧
    classifyChat "Message Kira I Found The Treasure" =
      Intent.DirectMessage "kira" "I Found The Treasure" ∧
    parse_dm_intent "DM dm DM" = some ("dm", "dm") :=
  ⟨fun _ _ _ h => parse_dm_intent_shape h, by decide, by decide, by decide⟩

/-- C3 witness: the general extraction shape instantiated at the spec's
example input. -/
theorem c3_dm_extraction_witness :
    "kira" ≠ "" ∧ (∀ c ∈ "kira".data, isWordChar c = true) ∧
    (∀ c ∈ "kira".data, Char.toLower c = c) ∧
    ((∃ i, 0 < i ∧ "I Found The Treasure".data =
        "Message Kira I Found The Treasure".data.drop i) ∨
      ∀ c ∈ "I Found The Treasure".data, Char.toLower c = c) :=
  c3_dm_extraction.1 "Message Kira I Found The Treasure" "kira" "I Found The Treasure"
    (by decide)

/-- C9: the intent classifiers are total functions and every line yields
exactly one classification, with unmatched text (including empty,
whitespace-only and punctuation-only input) falling through to a
GameplayAction carrying the text itself. -/
theorem c9_router_total :
    (∀ text : String,
      (∃ r m, classifyChat text = Intent.DirectMessage r m) ∨
      classifyChat text = Intent.InboxCheck ∨
      (∃ m, classifyChat text = Intent.GlobalBroadcast m) ∨
      classifyChat text = Intent.GameplayAction text) ∧
    classifyChat "" = Intent.GameplayAction "" ∧
    classifyChat "   " = Intent.GameplayAction "   " ∧
    classifyChat "?!?" = Intent.GameplayAction "?!?" := by
  refine ⟨?_, by decide, by decide, by decide⟩
  intro text
  cases h1 : parse_dm_intent text with
  | some p =>
    obtain ⟨r, m⟩ := p
    exact Or.inl ⟨r, m, by simp [classifyChat, h1]⟩
  | none =>
    by_cases h2 : parse_inbox_intent text
    · exact Or.inr (Or.inl (by simp [classifyChat, h1, h2]))
    · cases h3 : parse_global_chat_intent text with
      | some m =>
        exact Or.inr (Or.inr (Or.inl ⟨m, by simp [classifyChat, h1, h2, h3]⟩))
      | none =>
        exact Or.inr (Or.inr (Or.inr (by simp [classifyChat, h1, h2, h3])))

/-- Dropping a predicate across an appended non-matching last element keeps
that last element. -/
theorem dropWhile_append_last {p : Char → Bool} {c : Char} (hc : p c = false) :
    ∀ l : List Char, ∃ m2, List.dropWhile p (l ++ [c]) = m2 ++ [c] := by
  intro l
  induction l with
  | nil =>
    refine ⟨[], ?_⟩
    simp [List.dropWhile, hc]
  | cons a t ih =>
    by_cases hp : p a
    · obtain ⟨m2, hm2⟩ := ih
      exact ⟨m2, by simp [List.dropWhile, hp, hm2]⟩
    · exact ⟨a :: t, by simp [List.dropWhile, hp]⟩

/-- Stripping keeps a non-whitespace head character. -/
theorem stripList_cons_head {c : Char} {t : List Char} (hc : isPySpace c = false) :
    ∃ t2, stripList (c :: t) = c :: t2 := by
  unfold stripList
  rw [List.dropWhile_cons_of_neg (by simp [hc]), List.reverse_cons]
  obtain ⟨m2, hm2⟩ := dropWhile_append_last hc t.reverse
  exact ⟨m2.reverse, by simp [hm2]⟩

/-- A line whose raw text begins with `/` is fully handled by the slash
lexer: it terminates, dispatches a recognized command, or errors; it never
reaches the chat-intent or gameplay paths. -/
theorem routeLine_slash {action : String} (h : action.data.head? = some '/') :
    routeLine action = LoopStep.terminate ∨
    (∃ c, routeLine action = LoopStep.slash c) ∨
    routeLine action = LoopStep.unknownCommand action := by
  obtain ⟨t, ht⟩ : ∃ t, action.data = '/' :: t := by
    cases hd : action.data with
    | nil => rw [hd] at h; cases h
    | cons a t2 =>
      rw [hd] at h
      have ha : a = '/' := by simpa using h
      exact ⟨t2, by rw [ha]⟩
  have hne : action ≠ "" := by
    intro he
    rw [he] at ht
    cases ht
  have hlow : pyLower action.data = '/' :: pyLower t := by
    rw [ht]
    rfl
  obtain ⟨t2, hstrip⟩ := stripList_cons_head (c := '/') (t := pyLower t) (by decide)
  have hh : (stripList (pyLower action.data)).head? = some '/' := by
    rw [hlow, hstrip]
    rfl
  simp only [routeLine, if_neg hne]
  split_ifs with h1 h2 h3 h4 h5 h6 h7
  · exact Or.inl rfl
  · exact Or.inr (Or.inl ⟨SlashCmd.look, rfl⟩)
  · exact Or.inr (Or.inl ⟨SlashCmd.inventory, rfl⟩)
  · exact Or.inr (Or.inl ⟨SlashCmd.rest, rfl⟩)
  · exact Or.inr (Or.inl ⟨SlashCmd.messages, rfl⟩)
  · exact Or.inr (Or.inl ⟨SlashCmd.chat, rfl⟩)
  · exact Or.inr (Or.inl ⟨SlashCmd.help, rfl⟩)
  · exact Or.inr (Or.inr rfl)

/-- A non-empty line whose lowered, stripped form does not begin with `/`
and that matches none of the chat parsers is dispatched as a gameplay
action carrying the raw input. -/
theorem routeLine_gameplay {action : String} (hne : action ≠ "")
    (hs : (stripList (pyLower action.data)).head? ≠ some '/')
    (h1 : parse_dm_intent action = none) (h2 : parse_inbox_intent action = false)
    (h3 : parse_global_chat_intent action = none) :
    routeLine action = LoopStep.gameplay action := by
  have h4 : classifyChat action = Intent.GameplayAction action := by
    simp [classifyChat, h1, h2, h3]
  simp only [routeLine, if_neg hne]
  split_ifs with ha hb hc hd he1 hf hg
  · rcases ha with h | h | h <;> exact absurd (by rw [h]; rfl) hs
  · rcases hb with h | h <;> exact absurd (by rw [h]; rfl) hs
  · rcases hc with h | h | h <;> exact absurd (by rw [h]; rfl) hs
  · rcases hd with h | h <;> exact absurd (by rw [h]; rfl) hs
  · rcases he1 with h | h | h <;> exact absurd (by rw [h]; rfl) hs
  · rcases hf with h | h <;> exact absurd (by rw [h]; rfl) hs
  · rcases hg with h | h | h <;> exact absurd (by rw [h]; rfl) hs
  · rw [h4]

/-- C4 counterexample: `"  /x"` does not start with `/` (it starts with a
space) and matches no chat parser, yet the loop dispatches it as an
unrecognized slash command, not as a gameplay action, because the slash
check runs on the lowercased, stripped line. -/
theorem c4_counterexample :
    "  /x" ≠ "" ∧ "  /x".data.head? ≠ some '/' ∧
    parse_dm_intent "  /x" = none ∧ parse_inbox_intent "  /x" = false ∧
    parse_global_chat_intent "  /x" = none ∧
    routeLine "  /x" = LoopStep.unknownCommand "  /x" ∧
    routeLine "  /x" ≠ LoopStep.gameplay "  /x" :=
  ⟨by decide, by decide, by decide, by decide, by decide, by decide, by decide⟩

/-- C4 (amended): every non-empty line whose lowercased, stripped form does
not start with `/` and that matches no DM pattern, no inbox phrase and no
global pattern becomes a GameplayAction, and the raw text handed to the
generic action endpoint is the original input, character for character. -/
theorem c4_gameplay_fallback :
    (∀ action : String, action ≠ "" →
       (stripList (pyLower action.data)).head? ≠ some '/' →
       parse_dm_intent action = none → parse_inbox_intent action = false →
       parse_global_chat_intent action = none →
       routeLine action = LoopStep.gameplay action ∧
       ∀ gw : Gw, loopIter gw action = (doActionOut (gw.doAction action), true)) ∧
    routeLine "attack the goblin" = LoopStep.gameplay "attack the goblin" := by
  refine ⟨?_, by decide⟩
  intro action hne hs h1 h2 h3
  have hr := routeLine_gameplay hne hs h1 h2 h3
  exact ⟨hr, fun gw => by simp [loopIter, hr]⟩

/-- C4 witness: the fallback applied at `"attack the goblin"` with the
default Gateway stub. -/
theorem c4_gameplay_fallback_witness :
    routeLine "attack the goblin" = LoopStep.gameplay "attack the goblin" ∧
    loopIter {} "attack the goblin" =
      (doActionOut (Gw.doAction {} "attack the goblin"), true) := by
  have h := c4_gameplay_fallback.1 "attack the goblin" (by decide) (by decide)
    (by decide) (by decide) (by decide)
  exact ⟨h.1, h.2 {}⟩

/-- C5: every line beginning with `/` is handled by the slash lexer alone
(terminate, dispatch, or unrecognized-command error — never a chat intent or
gameplay action); the quit aliases terminate identically with the farewell
line, every other recognized alias dispatches its command and continues, and
unknown slash input errors and continues. -/
theorem c5_slash_commands :
    (∀ action : String, action.data.head? = some '/' →
       routeLine action = LoopStep.terminate ∨
       (∃ c, routeLine action = LoopStep.slash c) ∨
       routeLine action = LoopStep.unknownCommand action) ∧
    (∀ gw : Gw,
       loopIter gw "/quit" = ([OutLine.successLine "Farewell, adventurer!"], false) ∧
       loopIter gw "/exit" = ([OutLine.successLine "Farewell, adventurer!"], false) ∧
       loopIter gw "/q" = ([OutLine.successLine "Farewell, adventurer!"], false)) ∧
    routeLine "/look" = LoopStep.slash SlashCmd.look ∧
    routeLine "/l" = LoopStep.slash SlashCmd.look ∧
    routeLine "/inventory" = LoopStep.slash SlashCmd.inventory ∧
    routeLine "/inv" = LoopStep.slash SlashCmd.inventory ∧
    routeLine "/i" = LoopStep.slash SlashCmd.inventory ∧
    routeLine "/rest" = LoopStep.slash SlashCmd.rest ∧
    routeLine "/r" = LoopStep.slash SlashCmd.rest ∧
    routeLine "/messages" = LoopStep.slash SlashCmd.messages ∧
    routeLine "/m" = LoopStep.slash SlashCmd.messages ∧
    routeLine "/inbox" = LoopStep.slash SlashCmd.messages ∧
    routeLine "/chat" = LoopStep.slash SlashCmd.chat ∧
    routeLine "/c" = LoopStep.slash SlashCmd.chat ∧
    routeLine "/help" = LoopStep.slash SlashCmd.help ∧
    routeLine "/h" = LoopStep.slash SlashCmd.help ∧
    routeLine "/?" = LoopStep.slash SlashCmd.help ∧
    (∀ gw : Gw, (loopIter gw "/look").2 = true ∧ (loopIter gw "/messages").2 = true ∧
       (loopIter gw "/help").2 = true) ∧
    routeLine "/frobnicate" = LoopStep.unknownCommand "/frobnicate" ∧
    (∀ gw : Gw, loopIter gw "/frobnicate" =
       ([OutLine.errorLine ("Unknown command: " ++ "/frobnicate")], true)) := by
  have hq : routeLine "/quit" = LoopStep.terminate := by decide
  have he : routeLine "/exit" = LoopStep.terminate := by decide
  have hq2 : routeLine "/q" = LoopStep.terminate := by decide
  have hlk : routeLine "/look" = LoopStep.slash SlashCmd.look := by decide
  have hms : routeLine "/messages" = LoopStep.slash SlashCmd.messages := by decide
  have hhp : routeLine "/help" = LoopStep.slash SlashCmd.help := by decide
  have hfr : routeLine "/frobnicate" = LoopStep.unknownCommand "/frobnicate" := by decide
  refine ⟨fun action h => routeLine_slash h, ?_, by decide, by decide, by decide, by decide,
    by decide, by decide, by decide, by decide, by decide, by decide, by decide, by decide,
    by decide, by decide, by decide, ?_, hfr, ?_⟩
  · intro gw
    exact ⟨by simp [loopIter, hq], by simp [loopIter, he], by simp [loopIter, hq2]⟩
  · intro gw
    refine ⟨by simp [loopIter, hlk], by simp [loopIter, hms], by simp [loopIter, hhp]⟩
  · intro gw
    simp [loopIter, hfr]

/-- C5 witness: the lexer-only property applied at a line starting with `/`. -/
theorem c5_slash_commands_witness :
    routeLine "/purge" = LoopStep.terminate ∨
    (∃ c, routeLine "/purge" = LoopStep.slash c) ∨
    routeLine "/purge" = LoopStep.unknownCommand "/purge" :=
  c5_slash_commands.1 "/purge" (by decide)

/-- C7: every Gateway call failure inside a loop iteration is caught and
rendered as exactly one error line and the loop continues (termination
happens only on the quit family); the sole silently swallowed failure is
the best-effort unread-count fetch at loop entry. -/
theorem c7_error_policy :
    (∀ (gw : Gw) (action : String), routeLine action ≠ LoopStep.terminate →
       (loopIter gw action).2 = true) ∧
    (∀ (gw : Gw) (action raw e : String), routeLine action = LoopStep.gameplay raw →
       gw.doAction raw = Except.error e →
       loopIter gw action = ([OutLine.errorLine ("Action failed: " ++ e)], true)) ∧
    (∀ (gw : Gw) (action r m e : String), routeLine action = LoopStep.dm r m →
       gw.sendDm r m = Except.error e →
       loopIter gw action = ([OutLine.errorLine ("Failed to send: " ++ e)], true)) ∧
    (∀ (gw : Gw) (action e : String), routeLine action = LoopStep.inbox →
       gw.pendingMessages = Except.error e →
       loopIter gw action = ([OutLine.errorLine ("Failed to load messages: " ++ e)], true)) ∧
    (∀ (gw : Gw) (action m e : String), routeLine action = LoopStep.globalMsg m →
       gw.sendGlobal m = Except.error e →
       loopIter gw action = ([OutLine.errorLine ("Failed to send: " ++ e)], true)) ∧
    (∀ (gw : Gw) (action e : String), routeLine action = LoopStep.slash SlashCmd.look →
       gw.look = Except.error e →
       loopIter gw action = ([OutLine.errorLine ("Failed: " ++ e)], true)) ∧
    (∀ (gw : Gw) (action e : String), routeLine action = LoopStep.slash SlashCmd.inventory →
       gw.inventory = Except.error e →
       loopIter gw action = ([OutLine.errorLine ("Failed: " ++ e)], true)) ∧
    (∀ (gw : Gw) (action e : String), routeLine action = LoopStep.slash SlashCmd.rest →
       gw.restCall = Except.error e →
       loopIter gw action = ([OutLine.errorLine ("Failed: " ++ e)], true)) ∧
    (∀ (gw : Gw) (action e : String), routeLine action = LoopStep.slash SlashCmd.messages →
       gw.pendingMessages = Except.error e →
       loopIter gw action = ([OutLine.errorLine ("Failed to load messages: " ++ e)], true)) ∧
    (∀ (gw : Gw) (action e : String), routeLine action = LoopStep.slash SlashCmd.chat →
       gw.globalChat = Except.error e →
       loopIter gw action = ([OutLine.errorLine ("Failed to load chat: " ++ e)], true)) ∧
    (∀ e : String, unreadNotice (Except.error e) = []) := by
  refine ⟨?_, ?_, ?_, ?_, ?_, ?_, ?_, ?_, ?_, ?_, ?_⟩
  · intro gw action h
    cases hr : routeLine action with
    | terminate => exact absurd hr h
    | slash c => cases c <;> simp [loopIter, hr]
    | reprompt => simp [loopIter, hr]
    | unknownCommand raw => simp [loopIter, hr]
    | dm r m => simp [loopIter, hr]
    | inbox => simp [loopIter, hr]
    | globalMsg m => simp [loopIter, hr]
    | gameplay raw => simp [loopIter, hr]
  · intro gw action raw e h1 h2
    simp [loopIter, h1, doActionOut, h2]
  · intro gw action r m e h1 h2
    simp [loopIter, h1, sendDmOut, h2]
  · intro gw action e h1 h2
    simp [loopIter, h1, show_messages, h2]
  · intro gw action m e h1 h2
    simp [loopIter, h1, sendGlobalOut, h2]
  · intro gw action e h1 h2
    simp [loopIter, h1, doLookOut, h2]
  · intro gw action e h1 h2
    simp [loopIter, h1, doInventoryOut, h2]
  · intro gw action e h1 h2
    simp [loopIter, h1, doRestOut, h2]
  · intro gw action e h1 h2
    simp [loopIter, h1, show_messages, h2]
  · intro gw action e h1 h2
    simp [loopIter, h1, show_chat, h2]
  · intro e
    rfl

/-- Failing Gateway stub used by the C7 witness. -/
def gwFailing : Gw :=
  { doAction := fun _ => Except.error "boom",
    look := Except.error "boom",
    inventory := Except.error "boom",
    restCall := Except.error "boom",
    pendingMessages := Except.error "boom",
    globalChat := Except.error "boom",
    sendDm := fun _ _ => Except.error "boom",
    sendGlobal := fun _ => Except.error "boom" }

/-- C7 witness: a failed gameplay call and a failed DM send each render one
error line and keep the loop running, while a failed unread-count fetch
renders nothing. -/
theorem c7_error_policy_witness :
    loopIter gwFailing "attack the goblin" =
      ([OutLine.errorLine ("Action failed: " ++ "boom")], true) ∧
    loopIter gwFailing "dm Kira hello" =
      ([OutLine.errorLine ("Failed to send: " ++ "boom")], true) ∧
    unreadNotice (Except.error "boom") = [] :=
  ⟨c7_error_policy.2.1 gwFailing "attack the goblin" "attack the goblin" "boom"
      (by decide) rfl,
   c7_error_policy.2.2.1 gwFailing "dm Kira hello" "kira" "hello" "boom"
      (by decide) rfl,
   c7_error_policy.2.2.2.2.2.2.2.2.2.2 "boom"⟩

/-- Status stream for the C6 scenario: pending at elapsed times before 6,
authorized from 6 on. -/
def demoPoll : Nat → PollResult := fun t =>
  if t < 6 then { status := "pending" }
  else { status := "authorized", session_token := "tok123", user_id := "user42",
         email := "kira@example.com", display_name := "Kira" }

/-- C6: under the explicit clock, polls happen at the fixed interval 2
(the k-th poll at elapsed time 2*(k+1), scheduled only while the elapsed
time at the guard is below `expires_in`); an authorized poll persists the
token, user info and guest id and authenticates; an expired poll fails; any
other status continues; if no poll authorizes or expires, the loop times out
with the store untouched; and the spec's scenario (expires_in 10, pending at
2 and 4, authorized at 6) ends Authenticated with the token persisted. -/
theorem c6_device_auth :
    (∀ ein k : Nat, (pollTimes ein)[k]? =
       if k < (ein + 1) / 2 then some (2 * (k + 1)) else none) ∧
    (∀ ein t : Nat, t ∈ pollTimes ein → t - 2 < ein) ∧
    (∀ (poll : Nat → PollResult) (st : Store) (t : Nat) (ts : List Nat),
       (poll t).status = "authorized" →
       runPolls poll st (t :: ts) = (LoginResult.authenticated, persistAuth (poll t) st)) ∧
    (∀ (r : PollResult) (st : Store),
       (persistAuth r st).session_token = some r.session_token ∧
       (persistAuth r st).user_info = some ⟨r.user_id, r.email, r.display_name⟩ ∧
       (persistAuth r st).guest_id = some r.user_id ∧
       (persistAuth r st).api_key = st.api_key ∧
       (persistAuth r st).current_session = st.current_session) ∧
    (∀ (poll : Nat → PollResult) (st : Store) (t : Nat) (ts : List Nat),
       (poll t).status ≠ "authorized" → (poll t).status = "expired" →
       runPolls poll st (t :: ts) = (LoginResult.expiredErr, st)) ∧
    (∀ (poll : Nat → PollResult) (st : Store) (t : Nat) (ts : List Nat),
       (poll t).status ≠ "authorized" → (poll t).status ≠ "expired" →
       runPolls poll st (t :: ts) = runPolls poll st ts) ∧
    (∀ (poll : Nat → PollResult) (ein : Nat) (st : Store),
       (∀ t ∈ pollTimes ein, (poll t).status ≠ "authorized" ∧ (poll t).status ≠ "expired") →
       loginPoll poll ein st = (LoginResult.timeoutErr, st)) ∧
    (∀ st : Store, loginPoll demoPoll 10 st =
       (LoginResult.authenticated,
        { st with session_token := some "tok123",
                  user_info := some ⟨"user42", "kira@example.com", "Kira"⟩,
                  guest_id := some "user42" })) := by
  refine ⟨?_, ?_, ?_, ?_, ?_, ?_, ?_, ?_⟩
  · intro ein k
    simp only [pollTimes, List.getElem?_map]
    split
    · rename_i h
      rw [List.getElem?_range h]
      rfl
    · rename_i h
      rw [List.getElem?_eq_none (by simpa using Nat.le_of_not_lt h)]
      rfl
  · intro ein t ht
    simp only [pollTimes, List.mem_map, List.mem_range] at ht
    obtain ⟨k, hk, rfl⟩ := ht
    omega
  · intro poll st t ts h
    simp [runPolls, h]
  · intro r st
    exact ⟨rfl, rfl, rfl, rfl, rfl⟩
  · intro poll st t ts h1 h2
    simp [runPolls, h1, h2]
  · intro poll st t ts h1 h2
    simp [runPolls, h1, h2]
  · intro poll ein st hall
    unfold loginPoll
    have haux : ∀ ts : List Nat,
        (∀ t ∈ ts, (poll t).status ≠ "authorized" ∧ (poll t).status ≠ "expired") →
        runPolls poll st ts = (LoginResult.timeoutErr, st) := by
      intro ts
      induction ts with
      | nil => intro _; rfl
      | cons t ts2 ih =>
        intro hall2
        have h1 := hall2 t (List.mem_cons_self t ts2)
        simp only [runPolls, if_neg h1.1, if_neg h1.2]
        exact ih (fun x hx => hall2 x (List.mem_cons_of_mem t hx))
    exact haux _ hall
  · intro st
    rfl

/-- C6 witness: timeout on an all-pending stream and the step facts at a
concrete authorized poll. -/
theorem c6_device_auth_witness :
    loginPoll (fun _ => { status := "pending" }) 4 {} = (LoginResult.timeoutErr, {}) ∧
    runPolls demoPoll {} [6] =
      (LoginResult.authenticated, persistAuth (demoPoll 6) {}) :=
  ⟨c6_device_auth.2.2.2.2.2.2.1 (fun _ => { status := "pending" }) 4 {} (by decide),
   c6_device_auth.2.2.1 demoPoll {} 6 [] (by decide)⟩

/-- C8: with a stored session (truthy realm id), no truthy realm argument
and the resume prompt answered "n", `play` does not resume; it falls through
to selection, never touches the identity fields, and the stored current
session changes only when `start_session` succeeds — in which case it is
overwritten with the new session and nothing else changes. -/
theorem c8_resume_decline_frame :
    ∀ (env : PlayEnv) (st : Store) (cur : CurrentSession),
      st.current_session = some cur → truthyOpt cur.realm_id = true →
      truthyOpt env.realmArg = false → env.resumeAnswer = "n" →
      (play env st).1 ≠ PlayOutcome.resumed ∧
      (play env st).2.guest_id = st.guest_id ∧
      (play env st).2.api_key = st.api_key ∧
      (play env st).2.session_token = st.session_token ∧
      (play env st).2.user_info = st.user_info ∧
      ((play env st).2 = st ∨
        ∃ r, env.startSession = Except.ok r ∧ (play env st).1 = PlayOutcome.started ∧
          (play env st).2 =
            { st with current_session := some (toCurrent (r.session.getD {})) }) := by
  intro env st cur h1 h2 h3 h4
  have hno2 : ¬((match st.current_session with
      | some cur2 => truthyOpt cur2.realm_id
      | none => false) = true ∧ env.resumeAnswer = "y") := by
    intro hcon
    rw [h4] at hcon
    exact absurd hcon.2 (by decide)
  simp only [play, h3, Bool.not_false, Bool.and_true, Bool.false_eq_true, if_false,
    if_neg hno2]
  cases hsel : env.selectRealmResult with
  | none => simp
  | some realm =>
    simp only
    cases hcf : env.campfire with
    | error e => simp
    | ok u =>
      simp only
      cases hch : env.selectCharResult with
      | none => simp
      | some eid =>
        simp only
        cases hst : env.startSession with
        | error e => simp
        | ok r =>
          simp only
          exact ⟨by decide, trivial, trivial, trivial, trivial, Or.inr ⟨r, rfl, trivial, rfl⟩⟩

/-- C8 witness: declining resume with a failing realm selection leaves the
store untouched. -/
theorem c8_resume_decline_frame_witness :
    (play { resumeAnswer := "n" }
        { current_session := some { realm_id := some "r1" } }).1 ≠ PlayOutcome.resumed ∧
    (play { resumeAnswer := "n" }
        { current_session := some { realm_id := some "r1" } }).2.guest_id = none ∧
    (play { resumeAnswer := "n" }
        { current_session := some { realm_id := some "r1" } }).2.api_key = none ∧
    (play { resumeAnswer := "n" }
        { current_session := some { realm_id := some "r1" } }).2.session_token = none ∧
    (play { resumeAnswer := "n" }
        { current_session := some { realm_id := some "r1" } }).2.user_info = none ∧
    ((play { resumeAnswer := "n" }
        { current_session := some { realm_id := some "r1" } }).2 =
      { current_session := some { realm_id := some "r1" } } ∨
      ∃ r, PlayEnv.startSession { resumeAnswer := "n" } = Except.ok r ∧
        (play { resumeAnswer := "n" }
          { current_session := some { realm_id := some "r1" } }).1 = PlayOutcome.started ∧
        (play { resumeAnswer := "n" }
          { current_session := some { realm_id := some "r1" } }).2 =
          { current_session := some (toCurrent (r.session.getD {})) }) := by
  have h := c8_resume_decline_frame { resumeAnswer := "n" }
    { current_session := some { realm_id := some "r1" } } { realm_id := some "r1" }
    rfl (by decide) (by decide) rfl
  exact h

/-- Predicate picking out rendered message lines. -/
def isMsgLine : OutLine → Bool
  | .msgLine _ _ => true
  | _ => false

/-- Predicate picking out the `...and n more` summary line. -/
def isSummaryLine : OutLine → Bool
  | .moreSummary _ => true
  | _ => false

/-- Filtering a mapped list whose image always satisfies the predicate. -/
theorem filter_map_all {α : Type} {p : OutLine → Bool} {f : α → OutLine}
    (hf : ∀ x, p (f x) = true) (l : List α) :
    (l.map f).filter p = l.map f := by
  induction l with
  | nil => rfl
  | cons a t ih => simp [List.filter, hf, ih]

/-- C10: `_show_messages` renders at most the first 10 fetched messages; when
more than 10 exist exactly one summary line reports the remaining count; an
empty fetch renders the empty-inbox notice. -/
theorem c10_show_messages :
    show_messages (Except.ok []) =
      [OutLine.plainLine "No unread messages. Your inbox is empty."] ∧
    (∀ msgs : List Msg,
      (show_messages (Except.ok msgs)).filter isMsgLine = (msgs.take 10).map renderMsg) ∧
    (∀ msgs : List Msg,
      (show_messages (Except.ok msgs)).countP isMsgLine = min msgs.length 10) ∧
    (∀ msgs : List Msg, msgs.length > 10 →
      OutLine.moreSummary (msgs.length - 10) ∈ show_messages (Except.ok msgs) ∧
      (show_messages (Except.ok msgs)).countP isSummaryLine = 1) ∧
    (∀ msgs : List Msg, msgs.length ≤ 10 →
      (show_messages (Except.ok msgs)).countP isSummaryLine = 0) := by
  have hmsg : ∀ m : Msg, isMsgLine (renderMsg m) = true := fun m => rfl
  have hfilter : ∀ msgs : List Msg,
      (show_messages (Except.ok msgs)).filter isMsgLine = (msgs.take 10).map renderMsg := by
    intro msgs
    by_cases h : msgs = []
    · subst h; rfl
    · simp only [show_messages, if_neg h, List.filter_append]
      rw [filter_map_all hmsg]
      by_cases h10 : msgs.length > 10
      · rw [if_pos h10]
        simp [List.filter, isMsgLine]
      · rw [if_neg h10]
        simp [List.filter, isMsgLine]
  have hsummary : ∀ msgs : List Msg, msgs ≠ [] →
      (show_messages (Except.ok msgs)).countP isSummaryLine =
        (if msgs.length > 10 then 1 else 0) := by
    intro msgs h
    simp only [show_messages, if_neg h, List.countP_append]
    have hmap : (List.map renderMsg (msgs.take 10)).countP isSummaryLine = 0 := by
      rw [List.countP_eq_length_filter]
      have : (List.map renderMsg (msgs.take 10)).filter isSummaryLine = [] := by
        rw [List.filter_eq_nil_iff]
        intro a ha
        rcases List.mem_map.mp ha with ⟨x, _, rfl⟩
        simp [isSummaryLine, renderMsg]
      rw [this]
      rfl
    rw [hmap]
    by_cases h10 : msgs.length > 10
    · rw [if_pos h10, if_pos h10]
      simp [List.countP_cons, isSummaryLine]
    · rw [if_neg h10, if_neg h10]
      simp [List.countP_cons, isSummaryLine]
  refine ⟨rfl, hfilter, ?_, ?_, ?_⟩
  · intro msgs
    rw [List.countP_eq_length_filter, hfilter msgs, List.length_map, List.length_take,
      Nat.min_comm]
  · intro msgs h10
    have hne : msgs ≠ [] := by
      intro h
      rw [h] at h10
      simp at h10
    refine ⟨?_, by rw [hsummary msgs hne, if_pos h10]⟩
    simp only [show_messages, if_neg hne, if_pos h10]
    simp
  · intro msgs h10
    by_cases h : msgs = []
    · subst h; rfl
    · rw [hsummary msgs h, if_neg (by omega)]

/-- A twelve-message inbox used by the C10 witness. -/
def twelveMsgs : List Msg :=
  List.replicate 12 { sender_name := some "Ana", content := some "hi" }

/-- C10 witness: with 12 fetched messages, exactly 10 are rendered and the
single summary line reports the remaining 2. -/
theorem c10_show_messages_witness :
    (show_messages (Except.ok twelveMsgs)).countP isMsgLine = min twelveMsgs.length 10 ∧
    OutLine.moreSummary (twelveMsgs.length - 10) ∈ show_messages (Except.ok twelveMsgs) ∧
    (show_messages (Except.ok twelveMsgs)).countP isSummaryLine = 1 :=
  ⟨c10_show_messages.2.2.1 twelveMsgs,
   (c10_show_messages.2.2.2.1 twelveMsgs (by decide)).1,
   (c10_show_messages.2.2.2.1 twelveMsgs (by decide)).2⟩
